import Mathlib

/-!
Shallow embedding of `scripts/drop_tables.py`: a CLI that lists tables or
views in a Trino metastore and drops them, with dry-run-by-default execution,
identifier quoting, and a production confirmation gate.

Modelling choices:
- The Trino server is modelled as an oracle `execOk : String → Bool` stating
  whether executing a given DDL statement succeeds; metadata queries are
  modelled as total functions from the query parameters to the returned rows.
- Effects are made explicit: `drop_table_or_view` returns both its boolean
  result and the list of DDL statements it actually issued to the server,
  and `main_run` returns the process exit code together with a trace of the
  observable actions (connecting, metadata queries, the confirmation prompt,
  and issued DDL).
- Python string operations used on the confirmation response: `.strip()` is
  modelled with the full set of code points Python str.isspace() accepts;
  `.lower()` with ASCII lowercasing, which agrees with Python on the
  comparison against "yes" because no non-ASCII code point lowercases to
  one of its letters.
-/

/-- A row returned by the metadata queries: the Python dict with keys
"schema", "name" and "type" built in the listing functions. -/
structure TableEntry where
  schema : String
  name : String
  type : String
deriving DecidableEq, Repr

/-- Embeds `quote_identifier` (drop_tables.py:284-305): rejects identifiers
containing a double quote, otherwise wraps the identifier in double quotes.
A Python ValueError is modelled as `Except.error`. -/
def quote_identifier (identifier : String) : Except String String :=
  if identifier.data.contains '"' then
    Except.error ("Invalid identifier: contains double quotes: " ++ identifier)
  else
    Except.ok ("\"" ++ identifier ++ "\"")

/-- Result of one `drop_table_or_view` call: the boolean the function
returns and the DDL statements actually issued to the server. -/
structure DropOutcome where
  success : Bool
  executed : List String
deriving DecidableEq, Repr

/-- Embeds `drop_table_or_view` (drop_tables.py:308-362). Quoting failures in
the try block yield `False` with no DDL; in dry-run mode the statement is
built and logged but never issued; otherwise the statement is issued and the
result reflects whether the server accepted it. -/
def drop_table_or_view (execOk : String → Bool) (schema : String)
    (table_name : String) (table_type : String) (catalog : String)
    (dry_run : Bool) : DropOutcome :=
  match quote_identifier catalog, quote_identifier schema,
      quote_identifier table_name with
  | Except.ok quoted_catalog, Except.ok quoted_schema, Except.ok quoted_table =>
    let drop_statement :=
      if table_type = "VIEW" then
        "drop view if exists " ++ quoted_catalog ++ "." ++ quoted_schema
          ++ "." ++ quoted_table
      else
        "drop table if exists " ++ quoted_catalog ++ "." ++ quoted_schema
          ++ "." ++ quoted_table
    if dry_run then
      { success := true, executed := [] }
    else
      { success := execOk drop_statement, executed := [drop_statement] }
  | _, _, _ => { success := false, executed := [] }

/-- The summary dict returned by `drop_tables`. -/
structure DropSummary where
  total : Nat
  success : Nat
  failed : Nat
deriving DecidableEq, Repr

/-- Accumulated observations of the loop in `drop_tables`: counters, issued
DDL, and the (schema, name) pairs attempted, in order. -/
structure LoopAcc where
  success_count : Nat
  failed_count : Nat
  executed : List String
  attempted : List (String × String)
deriving DecidableEq, Repr

/-- The per-table loop of `drop_tables` (drop_tables.py:394-406): every
entry is passed to `drop_table_or_view` and counted as a success or a
failure; no outcome stops the iteration. -/
def dropLoop (execOk : String → Bool) (catalog : String) (dry_run : Bool) :
    List TableEntry → LoopAcc
  | [] => { success_count := 0, failed_count := 0, executed := [], attempted := [] }
  | t :: ts =>
    let r := drop_table_or_view execOk t.schema t.name t.type catalog dry_run
    let rest := dropLoop execOk catalog dry_run ts
    { success_count := (if r.success then 1 else 0) + rest.success_count
      failed_count := (if r.success then 0 else 1) + rest.failed_count
      executed := r.executed ++ rest.executed
      attempted := (t.schema, t.name) :: rest.attempted }

/-- Result of `drop_tables`: the summary dict plus the observable effects. -/
structure DropTablesResult where
  summary : DropSummary
  executed : List String
  attempted : List (String × String)
deriving DecidableEq, Repr

/-- Embeds `drop_tables` (drop_tables.py:365-416): an empty input returns the
zero summary immediately; otherwise every table is attempted and the summary
reports `len(tables)` as total with the success and failure counters. -/
def drop_tables (execOk : String → Bool) (tables : List TableEntry)
    (catalog : String) (dry_run : Bool) : DropTablesResult :=
  if tables.isEmpty then
    { summary := { total := 0, success := 0, failed := 0 }
      executed := [], attempted := [] }
  else
    let acc := dropLoop execOk catalog dry_run tables
    { summary :=
        { total := tables.length
          success := acc.success_count
          failed := acc.failed_count }
      executed := acc.executed
      attempted := acc.attempted }

lemma dropLoop_counts (execOk : String → Bool) (catalog : String)
    (dry_run : Bool) (tables : List TableEntry) :
    (dropLoop execOk catalog dry_run tables).success_count
      + (dropLoop execOk catalog dry_run tables).failed_count
      = tables.length := by
  induction tables with
  | nil => simp [dropLoop]
  | cons t ts ih =>
    simp only [dropLoop, List.length_cons]
    cases h : (drop_table_or_view execOk t.schema t.name t.type catalog dry_run).success <;>
      simp [h] <;> omega

lemma dropLoop_attempted (execOk : String → Bool) (catalog : String)
    (dry_run : Bool) (tables : List TableEntry) :
    (dropLoop execOk catalog dry_run tables).attempted
      = tables.map (fun t => (t.schema, t.name)) := by
  induction tables with
  | nil => simp [dropLoop]
  | cons t ts ih => simp [dropLoop, ih]

lemma dropLoop_failed (execOk : String → Bool) (catalog : String)
    (dry_run : Bool) (tables : List TableEntry) :
    (dropLoop execOk catalog dry_run tables).failed_count
      = (tables.filter (fun t =>
          !(drop_table_or_view execOk t.schema t.name t.type catalog dry_run).success)).length := by
  induction tables with
  | nil => simp [dropLoop]
  | cons t ts ih =>
    simp only [dropLoop, List.filter]
    cases h : (drop_table_or_view execOk t.schema t.name t.type catalog dry_run).success
    · simp [h, ih]
      omega
    · simp [h, ih]

/-- C5: For every input list of tables (including the empty list), the
summary returned by `drop_tables` satisfies `success + failed = total`, and
`total` is the length of the input list. -/
theorem drop_tables_summary_counts (execOk : String → Bool)
    (tables : List TableEntry) (catalog : String) (dry_run : Bool) :
    (drop_tables execOk tables catalog dry_run).summary.success
        + (drop_tables execOk tables catalog dry_run).summary.failed
      = (drop_tables execOk tables catalog dry_run).summary.total
    ∧ (drop_tables execOk tables catalog dry_run).summary.total
      = tables.length := by
  unfold drop_tables
  cases tables with
  | nil => simp
  | cons t ts =>
    simp only [List.isEmpty_cons, if_neg]
    exact ⟨dropLoop_counts execOk catalog dry_run (t :: ts), rfl⟩

/-- C7: A failed drop does not stop the loop: every table of the input list
is attempted, in order, and the failed count of the summary is exactly the
number of tables on which `drop_table_or_view` returned False. -/
theorem drop_tables_attempts_all (execOk : String → Bool)
    (tables : List TableEntry) (catalog : String) (dry_run : Bool) :
    (drop_tables execOk tables catalog dry_run).attempted
      = tables.map (fun t => (t.schema, t.name))
    ∧ (drop_tables execOk tables catalog dry_run).summary.failed
      = (tables.filter (fun t =>
          !(drop_table_or_view execOk t.schema t.name t.type catalog dry_run).success)).length := by
  unfold drop_tables
  cases tables with
  | nil => simp
  | cons t ts =>
    simp only [List.isEmpty_cons, if_neg]
    exact ⟨dropLoop_attempted execOk catalog dry_run (t :: ts),
      dropLoop_failed execOk catalog dry_run (t :: ts)⟩

/-- C4: `quote_identifier` fails exactly on identifiers containing a double
quote and otherwise returns the identifier wrapped in double quotes; when any
of the three identifiers contains a double quote, `drop_table_or_view`
returns False and issues no DDL. -/
theorem quote_identifier_spec (identifier : String) (execOk : String → Bool)
    (schema table_name table_type catalog : String) (dry_run : Bool) :
    ((∃ msg, quote_identifier identifier = Except.error msg)
        ↔ identifier.data.contains '"' = true)
    ∧ (identifier.data.contains '"' = false →
        quote_identifier identifier = Except.ok ("\"" ++ identifier ++ "\""))
    ∧ ((catalog.data.contains '"' = true ∨ schema.data.contains '"' = true
          ∨ table_name.data.contains '"' = true) →
        drop_table_or_view execOk schema table_name table_type catalog dry_run
          = { success := false, executed := [] }) := by
  refine ⟨?_, ?_, ?_⟩
  · cases h : identifier.data.contains '"' <;> simp at h <;>
      simp [quote_identifier, h]
  · intro h
    simp at h
    simp [quote_identifier, h]
  · intro h
    unfold drop_table_or_view
    cases hc : catalog.data.contains '"' <;> cases hs : schema.data.contains '"' <;>
        cases ht : table_name.data.contains '"' <;>
      simp_all [quote_identifier]

/-- C4 witness: a concrete valid identifier is wrapped in double quotes, and
a concrete schema containing a double quote makes `drop_table_or_view`
return False with no DDL issued. -/
theorem quote_identifier_spec_witness :
    quote_identifier "my_table" = Except.ok ("\"" ++ "my_table" ++ "\"")
    ∧ drop_table_or_view (fun _ => true) "bad\"schema" "tbl" "BASE TABLE"
        "dune" false
      = { success := false, executed := [] } :=
  ⟨(quote_identifier_spec "my_table" (fun _ => true) "s" "t" "BASE TABLE"
      "dune" false).2.1 (by decide),
   (quote_identifier_spec "x" (fun _ => true) "bad\"schema" "tbl" "BASE TABLE"
      "dune" false).2.2 (Or.inr (Or.inl (by decide)))⟩

/-- C6: with valid identifiers and dry_run off, the DDL issued is exactly
the drop view statement for type VIEW and the drop table statement for every
other type, with each identifier double-quoted. -/
theorem drop_statement_shape (execOk : String → Bool)
    (schema table_name table_type catalog : String)
    (hc : catalog.data.contains '"' = false) (hs : schema.data.contains '"' = false)
    (ht : table_name.data.contains '"' = false) :
    (table_type = "VIEW" →
      drop_table_or_view execOk schema table_name table_type catalog false
        = { success := execOk ("drop view if exists " ++ ("\"" ++ catalog ++ "\"")
              ++ "." ++ ("\"" ++ schema ++ "\"") ++ "."
              ++ ("\"" ++ table_name ++ "\""))
            executed := ["drop view if exists " ++ ("\"" ++ catalog ++ "\"")
              ++ "." ++ ("\"" ++ schema ++ "\"") ++ "."
              ++ ("\"" ++ table_name ++ "\"")] })
    ∧ (table_type ≠ "VIEW" →
      drop_table_or_view execOk schema table_name table_type catalog false
        = { success := execOk ("drop table if exists " ++ ("\"" ++ catalog ++ "\"")
              ++ "." ++ ("\"" ++ schema ++ "\"") ++ "."
              ++ ("\"" ++ table_name ++ "\""))
            executed := ["drop table if exists " ++ ("\"" ++ catalog ++ "\"")
              ++ "." ++ ("\"" ++ schema ++ "\"") ++ "."
              ++ ("\"" ++ table_name ++ "\"")] }) := by
  simp at hc hs ht
  constructor <;> intro hty <;>
    simp [drop_table_or_view, quote_identifier, hc, hs, ht, hty]

/-- C6 witness: concrete DDL statements for a VIEW and for a BASE TABLE. -/
theorem drop_statement_shape_witness :
    drop_table_or_view (fun _ => true) "s1" "v1" "VIEW" "dune" false
      = { success := (fun _ => true) ("drop view if exists "
            ++ ("\"" ++ "dune" ++ "\"") ++ "." ++ ("\"" ++ "s1" ++ "\"")
            ++ "." ++ ("\"" ++ "v1" ++ "\""))
          executed := ["drop view if exists " ++ ("\"" ++ "dune" ++ "\"")
            ++ "." ++ ("\"" ++ "s1" ++ "\"") ++ "."
            ++ ("\"" ++ "v1" ++ "\"")] }
    ∧ drop_table_or_view (fun _ => true) "s1" "t1" "BASE TABLE" "dune" false
      = { success := (fun _ => true) ("drop table if exists "
            ++ ("\"" ++ "dune" ++ "\"") ++ "." ++ ("\"" ++ "s1" ++ "\"")
            ++ "." ++ ("\"" ++ "t1" ++ "\""))
          executed := ["drop table if exists " ++ ("\"" ++ "dune" ++ "\"")
            ++ "." ++ ("\"" ++ "s1" ++ "\"") ++ "."
            ++ ("\"" ++ "t1" ++ "\"")] } :=
  ⟨(drop_statement_shape (fun _ => true) "s1" "v1" "VIEW" "dune"
      (by decide) (by decide) (by decide)).1 rfl,
   (drop_statement_shape (fun _ => true) "s1" "t1" "BASE TABLE" "dune"
      (by decide) (by decide) (by decide)).2 (by decide)⟩

/-- C2 counterexample: a table entry whose name contains a double quote makes
`drop_table_or_view` return False even in dry-run mode, so the claim that it
returns True for every table entry in dry-run mode fails. -/
theorem dry_run_invalid_identifier_counterexample :
    (drop_table_or_view (fun _ => true) "my_schema" "bad\"name" "BASE TABLE"
        "dune" true).success = false := by
  decide

/-- C2 amended: in dry-run mode `drop_table_or_view` never issues DDL, and it
returns True whenever all three identifiers are free of double quotes. -/
theorem dry_run_no_ddl (execOk : String → Bool)
    (schema table_name table_type catalog : String) :
    (drop_table_or_view execOk schema table_name table_type catalog true).executed
        = []
    ∧ (catalog.data.contains '"' = false → schema.data.contains '"' = false →
        table_name.data.contains '"' = false →
        (drop_table_or_view execOk schema table_name table_type catalog
            true).success = true) := by
  constructor
  · unfold drop_table_or_view
    cases hc : catalog.data.contains '"' <;> cases hs : schema.data.contains '"' <;>
        cases ht : table_name.data.contains '"' <;>
      simp_all [quote_identifier]
  · intro hc hs ht
    simp at hc hs ht
    simp [drop_table_or_view, quote_identifier, hc, hs, ht]

/-- C2 witness: a concrete dry-run drop issues no DDL and returns True. -/
theorem dry_run_no_ddl_witness :
    (drop_table_or_view (fun _ => true) "dune__tmp_a" "tbl" "BASE TABLE"
        "dune" true).executed = []
    ∧ (drop_table_or_view (fun _ => true) "dune__tmp_a" "tbl" "BASE TABLE"
        "dune" true).success = true :=
  ⟨(dry_run_no_ddl (fun _ => true) "dune__tmp_a" "tbl" "BASE TABLE" "dune").1,
   (dry_run_no_ddl (fun _ => true) "dune__tmp_a" "tbl" "BASE TABLE" "dune").2
     (by decide) (by decide) (by decide)⟩

/-- The code points Python str.isspace() accepts, which str.strip()
removes: U+0009 to U+000D, U+001C to U+0020, NEL, NBSP, the Ogham space
mark, the U+2000 to U+200A spaces, the line and paragraph separators, the
narrow no-break, medium mathematical and ideographic spaces. -/
def isPySpace (c : Char) : Bool :=
  (0x09 ≤ c.toNat ∧ c.toNat ≤ 0x0D) ∨ (0x1C ≤ c.toNat ∧ c.toNat ≤ 0x20)
    ∨ c.toNat = 0x85 ∨ c.toNat = 0xA0 ∨ c.toNat = 0x1680
    ∨ (0x2000 ≤ c.toNat ∧ c.toNat ≤ 0x200A)
    ∨ c.toNat = 0x2028 ∨ c.toNat = 0x2029 ∨ c.toNat = 0x202F
    ∨ c.toNat = 0x205F ∨ c.toNat = 0x3000

/-- Python str.strip(): drop leading and trailing whitespace. -/
def pyStrip (s : String) : String :=
  String.mk (((s.data.dropWhile isPySpace).reverse.dropWhile isPySpace).reverse)

/-- Python str.lower() restricted to ASCII letters. -/
def pyLower (s : String) : String :=
  String.mk (s.data.map Char.toLower)

/-- The two values of the --target flag. -/
inductive Target where
  | dev
  | prod
deriving DecidableEq, Repr

/-- The parsed command-line arguments that influence control flow:
--target, --schema, --table and --execute (drop_tables.py:451-493).
The --api-key and --verbose flags only affect credentials and logging and
are folded into the environment below. The source tests args.schema and
args.table by truthiness, so an empty-string flag value behaves like an
absent flag and is modelled as `none`. -/
structure Args where
  target : Target
  schema : Option String
  table : Option String
  execute : Bool
deriving DecidableEq, Repr

/-- The external world seen by `main`: the DUNE_TEAM_NAME variable, whether
credentials are available (DUNE_API_KEY or --api-key), whether the
connection attempt succeeds, the rows each metadata query returns, the
response typed at the confirmation prompt, and the DDL oracle. -/
structure Env where
  dune_team_name : String
  api_key_ok : Bool
  connect_ok : Bool
  queryByPattern : String → List TableEntry
  queryBySchema : String → List TableEntry
  querySpecific : String → String → List TableEntry
  user_input : String
  execOk : String → Bool

/-- Observable actions of one run of `main`, in order. -/
inductive Act where
  | connect
  | query_pattern (p : String)
  | query_schema (s : String)
  | query_table (s t : String)
  | prompt
  | ddl (stmt : String)
deriving DecidableEq, Repr

/-- Embeds the schema resolution of `main` (drop_tables.py:506-516): an
explicit --schema is used as given, with pattern matching exactly when no
--table is named; otherwise the target picks the default prod schema or the
default dev pattern `<team>__tmp_%`. Returns (schema_or_pattern, use_pattern). -/
def resolve_schema (env : Env) (args : Args) : String × Bool :=
  match args.schema with
  | some s => (s, args.table.isNone)
  | none =>
    match args.target with
    | Target.prod => (env.dune_team_name, false)
    | Target.dev => (env.dune_team_name ++ "__tmp_%", true)

/-- Embeds the table-listing dispatch of `main` (drop_tables.py:562-586):
a named --table uses `list_specific_table`, otherwise the pattern or exact
schema listing applies. -/
def listed_tables (env : Env) (args : Args) : List TableEntry :=
  match args.table with
  | some t => env.querySpecific (args.schema.getD "") t
  | none =>
    if (resolve_schema env args).2 then
      env.queryByPattern (resolve_schema env args).1
    else
      env.queryBySchema (resolve_schema env args).1

/-- The metadata-query action matching `listed_tables`. -/
def listing_action (env : Env) (args : Args) : Act :=
  match args.table with
  | some t => Act.query_table (args.schema.getD "") t
  | none =>
    if (resolve_schema env args).2 then
      Act.query_pattern (resolve_schema env args).1
    else
      Act.query_schema (resolve_schema env args).1

/-- Embeds `main` (drop_tables.py:419-643) as exit code plus action trace.
Control flow follows the source: validation of the table and schema flags and the
production safety check return 1 before any connection; a missing API key
raises in the DuneTrinoConnection constructor and a failed connection
attempt raises in connect(), both caught by the outer handler which returns
1; a named table that the metastore does not contain returns 0 after the
lookup; the confirmation prompt is reached only for prod, non-dry-run,
non-empty listings, and an answer whose stripped lowercase form differs
from "yes" cancels with exit code 0; otherwise `drop_tables` runs and main
returns 0. -/
def main_run (env : Env) (args : Args) : Nat × List Act :=
  let dry_run := !args.execute
  let is_prod := args.target = Target.prod
  if args.table.isSome ∧ args.schema.isNone then
    (1, [])
  else if is_prod ∧ (args.schema.isNone ∨ args.table.isNone) then
    (1, [])
  else if !env.api_key_ok then
    (1, [])
  else if !env.connect_ok then
    (1, [Act.connect])
  else
    let tables := listed_tables env args
    let trace0 := [Act.connect, listing_action env args]
    if args.table.isSome ∧ tables.isEmpty then
      (0, trace0)
    else if is_prod ∧ !dry_run ∧ !tables.isEmpty then
      let response := pyLower (pyStrip env.user_input)
      if response ≠ "yes" then
        (0, trace0 ++ [Act.prompt])
      else
        let r := drop_tables env.execOk tables "dune" dry_run
        (0, trace0 ++ [Act.prompt] ++ r.executed.map Act.ddl)
    else
      let r := drop_tables env.execOk tables "dune" dry_run
      (0, trace0 ++ r.executed.map Act.ddl)

/-- Environment used by the concrete runs below: a production schema holding
one base table, every DDL statement accepted, the prompt answered "YES". -/
def envYes : Env :=
  { dune_team_name := "dune", api_key_ok := true, connect_ok := true
    queryByPattern := fun _ => [], queryBySchema := fun _ => []
    querySpecific := fun _ _ =>
      [{ schema := "dune", name := "t1", type := "BASE TABLE" }]
    user_input := "YES", execOk := fun _ => true }

/-- Like `envYes` but the prompt is answered "no". -/
def envNo : Env := { envYes with user_input := "no" }

/-- Like `envYes` but the named-table lookup finds nothing. -/
def envEmpty : Env := { envYes with querySpecific := fun _ _ => [] }

lemma listing_action_ne_prompt (env : Env) (args : Args) :
    listing_action env args ≠ Act.prompt := by
  unfold listing_action
  cases h : args.table with
  | some t => simp
  | none =>
    cases hr : (resolve_schema env args).2 <;> simp [hr]

/-- C3: when the target is prod and --schema or --table is absent, `main`
returns exit code 1 with an empty action trace, so no connection is made
and no metadata query is issued. -/
theorem prod_requires_schema_and_table (env : Env) (args : Args)
    (hp : args.target = Target.prod)
    (h : args.schema = none ∨ args.table = none) :
    main_run env args = (1, []) := by
  rcases h with h | h
  · cases ht : args.table <;> simp [main_run, h, hp, ht]
  · simp [main_run, h, hp]

/-- C3 witness: a prod run with neither flag exits 1 with no actions. -/
theorem prod_requires_schema_and_table_witness :
    main_run envYes
      { target := Target.prod, schema := none, table := none, execute := false }
      = (1, []) :=
  prod_requires_schema_and_table envYes
    { target := Target.prod, schema := none, table := none, execute := false }
    rfl (Or.inl rfl)

/-- C8: naming --table without --schema exits 1 before connecting, for every
target, dev included. -/
theorem table_requires_schema (env : Env) (args : Args)
    (ht : args.table.isSome = true) (hs : args.schema = none) :
    main_run env args = (1, []) := by
  simp [main_run, ht, hs]

/-- C8 witness: a dev run with --table alone exits 1 with no actions. -/
theorem table_requires_schema_witness :
    main_run envYes
      { target := Target.dev, schema := none, table := some "t1",
        execute := false }
      = (1, []) :=
  table_requires_schema envYes
    { target := Target.dev, schema := none, table := some "t1",
      execute := false }
    rfl rfl

/-- C10: when --table names a table the metastore does not contain, `main`
returns exit code 0 right after the lookup, with no prompt and no drop. -/
theorem missing_table_exits_zero (env : Env) (tgt : Target) (ex : Bool)
    (s t : String) (hak : env.api_key_ok = true) (hco : env.connect_ok = true)
    (hq : env.querySpecific s t = []) :
    main_run env { target := tgt, schema := some s, table := some t, execute := ex }
      = (0, [Act.connect, Act.query_table s t]) := by
  simp [main_run, listed_tables, listing_action, hak, hco, hq]

/-- C10 witness: a lookup of an absent table exits 0 after the query. -/
theorem missing_table_exits_zero_witness :
    main_run envEmpty
      { target := Target.dev, schema := some "s", table := some "missing",
        execute := false }
      = (0, [Act.connect, Act.query_table "s" "missing"]) :=
  missing_table_exits_zero envEmpty Target.dev false "s" "missing" rfl rfl rfl

/-- C1 counterexample: the response "YES" is not exactly "yes", yet the run
proceeds and issues the DROP statement, because `main` compares the
stripped lowercase response with "yes". -/
theorem confirmation_exact_yes_counterexample :
    ("YES" : String) ≠ "yes"
    ∧ main_run envYes
        { target := Target.prod, schema := some "dune", table := some "t1",
          execute := true }
      = (0, [Act.connect, Act.query_table "dune" "t1", Act.prompt,
          Act.ddl "drop table if exists \"dune\".\"dune\".\"t1\""]) := by
  constructor
  · decide
  · decide

/-- C1 amended: at the production confirmation prompt, every response whose
whitespace-stripped lowercase form differs from "yes" cancels the
operation: `main` returns exit code 0 and no DDL is issued. -/
theorem confirmation_non_yes_cancels (env : Env) (s t : String)
    (hak : env.api_key_ok = true) (hco : env.connect_ok = true)
    (hq : env.querySpecific s t ≠ [])
    (hin : pyLower (pyStrip env.user_input) ≠ "yes") :
    main_run env
      { target := Target.prod, schema := some s, table := some t,
        execute := true }
      = (0, [Act.connect, Act.query_table s t, Act.prompt]) := by
  cases hqq : env.querySpecific s t with
  | nil => exact absurd hqq hq
  | cons a as =>
    simp [main_run, listed_tables, listing_action, hak, hco, hqq, hin]

/-- C1 witness: the concrete response "no" cancels a production drop. -/
theorem confirmation_non_yes_cancels_witness :
    main_run envNo
      { target := Target.prod, schema := some "dune", table := some "t1",
        execute := true }
      = (0, [Act.connect, Act.query_table "dune" "t1", Act.prompt]) :=
  confirmation_non_yes_cancels envNo "dune" "t1" rfl rfl (by decide) (by decide)

lemma prompt_mem_main_run (env : Env) (args : Args)
    (h : Act.prompt ∈ (main_run env args).2) :
    args.target = Target.prod ∧ args.execute = true
      ∧ listed_tables env args ≠ [] := by
  unfold main_run at h
  simp only [] at h
  split at h
  · simp at h
  · split at h
    · simp at h
    · split at h
      · simp at h
      · split at h
        · simp at h
        · split at h
          · simp at h
            exact absurd h.symm (listing_action_ne_prompt env args)
          · split at h
            · rename_i hguard
              obtain ⟨h1, h2, h3⟩ := hguard
              exact ⟨h1, by simpa using h2, by simpa using h3⟩
            · simp at h
              exact absurd h.symm (listing_action_ne_prompt env args)

/-- C9: the confirmation prompt is shown only on a prod-target run with
--execute and a non-empty listing; a dry-run invocation, and a run whose
listing of matching tables is empty, proceed without any prompt. -/
theorem prompt_conditions (env : Env) (args : Args) :
    (Act.prompt ∈ (main_run env args).2 →
      args.target = Target.prod ∧ args.execute = true
        ∧ listed_tables env args ≠ [])
    ∧ (args.execute = false → Act.prompt ∉ (main_run env args).2)
    ∧ (listed_tables env args = [] → Act.prompt ∉ (main_run env args).2) := by
  refine ⟨prompt_mem_main_run env args, ?_, ?_⟩
  · intro hex h
    have hx := (prompt_mem_main_run env args h).2.1
    rw [hex] at hx
    exact Bool.false_ne_true hx
  · intro hl h
    exact (prompt_mem_main_run env args h).2.2 hl

/-- C9 witness: a concrete prod dry run shows no prompt. -/
theorem prompt_conditions_witness :
    Act.prompt ∉ (main_run envYes
      { target := Target.prod, schema := some "dune", table := some "t1",
        execute := false }).2 :=
  (prompt_conditions envYes
    { target := Target.prod, schema := some "dune", table := some "t1",
      execute := false }).2.1 rfl
